import Mathlib

/-
Verification of the rule-matching and template-substitution engine of the
uap-rs user-agent classifier (src/parser/{mod,device,os,user_agent}.rs).

The four source files under src/ are embedded shallowly below: the external
regex engine is modelled by its observable interface (a capture function per
compiled pattern, and an abstract `build` step for compilation), every other
function is translated directly from the Rust source.  Container records and
rule records whose declaring files are outside src/ are modelled from the
specification and say so in their doc comments.
-/

set_option maxHeartbeats 1000000

/-- Capture set of one successful regex match, as exposed by
`regex::Captures`: group 0 (the whole match) always participates, further
groups may or may not hold text.  `regex::Captures::len` therefore is always
positive. -/
structure Captures where
  whole : String
  groups : List (Option String)
deriving DecidableEq

/-- Model of `regex::Captures::len`: total number of groups of the pattern,
group 0 included. -/
def Captures.len (c : Captures) : Nat := 1 + c.groups.length

/-- Model of `regex::Captures::get`: group 0 is the whole match; a group
beyond the list, or one that did not participate, gives `none`. -/
def Captures.get (c : Captures) : Nat → Option String
  | 0 => some c.whole
  | i + 1 => c.groups.getD i none

/-- Shallow model of a compiled `regex::Regex`: it is fully characterized by
the capture function `Regex::captures`; `is_match` agrees with
`captures(..).is_some()`, as the regex crate guarantees. -/
structure Regex where
  captures : String → Option Captures

/-- Model of `regex::Regex::is_match`. -/
def Regex.is_match (r : Regex) (text : String) : Bool :=
  (r.captures text).isSome

/-- Characters the regex crate accepts in an unbraced capture-reference
name. -/
def isWordChar (c : Char) : Bool := c.isAlphanum || c = '_'

/-- Opening curly bracket character. -/
def lbraceChar : Char := Char.ofNat 123

/-- Closing curly bracket character. -/
def rbraceChar : Char := Char.ofNat 125

/-- Decimal value of a run of digit characters (how the regex crate parses a
numeric capture reference). -/
def digitsToNat (l : List Char) : Nat :=
  l.foldl (fun n c => n * 10 + (c.toNat - 48)) 0

/-- Lookup of one capture reference, as `regex::Captures::expand` resolves
it: an all-digit name is a group index, any other name (our model tracks no
named groups) and any group that did not participate expand to the empty
string. -/
def Captures.ref_text (c : Captures) (name : String) : String :=
  if !name.data.isEmpty && name.data.all Char.isDigit then
    (c.get (digitsToNat name.data)).getD ""
  else ""

/-- Model of the scanning loop of `regex::Captures::expand`: `$$` is a
literal dollar, `$name` (longest word-character run) and `$\x7bname\x7d` are
capture references, a dollar not followed by a valid reference is literal.
The fuel is an upper bound on the characters still to process; every step
consumes at least one character, so the caller passes the list length and
the fuel never runs out. -/
def expandAux (c : Captures) : Nat → List Char → List Char
  | 0, l => l
  | _ + 1, [] => []
  | fuel + 1, d :: rest =>
    if d = '$' then
      match rest with
      | [] => ['$']
      | e :: rest2 =>
        if e = '$' then '$' :: expandAux c fuel rest2
        else if e = lbraceChar then
          match rest2.dropWhile (fun x => x ≠ rbraceChar) with
          | [] => '$' :: expandAux c fuel (e :: rest2)
          | _ :: after2 =>
            if (rest2.takeWhile (fun x => x ≠ rbraceChar)).isEmpty then
              '$' :: expandAux c fuel (e :: rest2)
            else
              (c.ref_text (String.mk (rest2.takeWhile (fun x => x ≠ rbraceChar)))).data
                ++ expandAux c fuel after2
        else
          if ((e :: rest2).takeWhile isWordChar).isEmpty then
            '$' :: expandAux c fuel (e :: rest2)
          else
            (c.ref_text (String.mk ((e :: rest2).takeWhile isWordChar))).data
              ++ expandAux c fuel ((e :: rest2).drop ((e :: rest2).takeWhile isWordChar).length)
    else d :: expandAux c fuel rest

/-- Model of `regex::Captures::expand` (appending into an initially empty
buffer, as `replace_cow` does). -/
def Captures.expand (c : Captures) (replacement : String) : String :=
  String.mk (expandAux c replacement.data.length replacement.data)

/-- Model of `str::trim`: leading and trailing whitespace characters are
removed. -/
def str_trim (s : String) : String :=
  String.mk (((s.data.dropWhile Char.isWhitespace).reverse.dropWhile Char.isWhitespace).reverse)

/-- Model of `none_if_empty` (mod.rs): an empty string becomes `none`. -/
def none_if_empty (s : String) : Option String :=
  if s.isEmpty then none else some s

/-- Model of `has_group` (mod.rs): a template references a capture group iff
it contains a dollar sign. -/
def has_group (replacement : String) : Bool := replacement.data.contains '$'

/-- Model of `replace_cow` (mod.rs): with a group-referencing template and a
positive capture count the template is expanded against the captures and the
result trimmed; otherwise the template text is returned unchanged. -/
def replace_cow (replacement : String) (replacement_has_group : Bool)
    (captures : Captures) : String :=
  if replacement_has_group && decide (0 < captures.len) then
    str_trim (captures.expand replacement)
  else replacement

/-- Model of the `INVALID_ESCAPES` rewrite of `clean_escapes` (mod.rs): the
regex `\\([! /])` is replaced everywhere, left to right, by its first group,
turning a backslash followed by a bang, space or slash into the bare
character. -/
def clean_escapesAux : List Char → List Char
  | [] => []
  | [c] => [c]
  | a :: b :: rest =>
    if a = '\\' && (b = '!' || b = ' ' || b = '/') then b :: clean_escapesAux rest
    else a :: clean_escapesAux (b :: rest)

/-- Model of `clean_escapes` (mod.rs). -/
def clean_escapes (pattern : String) : String :=
  String.mk (clean_escapesAux pattern.data)

/-- Modelled from the spec: the `Device` output record (its declaring file
is outside src/); `family` is required, `brand` and `model` optional. -/
structure Device where
  family : String
  brand : Option String
  model : Option String
deriving DecidableEq

/-- Modelled from the spec: the zero value of `Device` (Rust `Default`) —
empty family, optional fields absent. -/
def Device.default : Device := { family := "", brand := none, model := none }

/-- Modelled from the spec: the `OS` output record (its declaring file is
outside src/). -/
structure OS where
  family : String
  major : Option String
  minor : Option String
  patch : Option String
  patch_minor : Option String
deriving DecidableEq

/-- Modelled from the spec: the zero value of `OS` (Rust `Default`). -/
def OS.default : OS :=
  { family := "", major := none, minor := none, patch := none, patch_minor := none }

/-- Modelled from the spec: the `UserAgent` output record (its declaring
file is outside src/). -/
structure UserAgent where
  family : String
  major : Option String
  minor : Option String
  patch : Option String
deriving DecidableEq

/-- Modelled from the spec: the zero value of `UserAgent` (Rust
`Default`). -/
def UserAgent.default : UserAgent :=
  { family := "", major := none, minor := none, patch := none }

/-- Modelled from the spec: the device rule record (`DeviceParserEntry`,
declared in file.rs which is outside src/), carrying a pattern, an optional
flag string and the per-field replacement templates. -/
structure DeviceParserEntry where
  regex_flag : Option String
  regex : String
  device_replacement : Option String
  brand_replacement : Option String
  model_replacement : Option String

/-- Modelled from the spec: the os rule record (`OSParserEntry`, declared in
file.rs which is outside src/); per spec section 6 every rule record carries
an optional flag string. -/
structure OSParserEntry where
  regex_flag : Option String
  regex : String
  os_replacement : Option String
  os_v1_replacement : Option String
  os_v2_replacement : Option String
  os_v3_replacement : Option String

/-- Modelled from the spec: the user-agent rule record
(`UserAgentParserEntry`, declared in file.rs which is outside src/); per
spec section 6 every rule record carries an optional flag string. -/
structure UserAgentParserEntry where
  regex_flag : Option String
  regex : String
  family_replacement : Option String
  v1_replacement : Option String
  v2_replacement : Option String
  v3_replacement : Option String

/-- Default compiled-size limit of the regex crate, the one in effect for
`Regex::new` when the source does not call `size_limit` (10 MiB). -/
def DEFAULT_SIZE_LIMIT : Nat := 10 * 2 ^ 20

namespace device

/-- Model of `parser::device::Error`, holding the regex compiler's error. -/
inductive Error where
  | Regex : String → Error
deriving DecidableEq

/-- Model of `parser::device::Matcher` (device.rs). -/
structure Matcher where
  regex : Regex
  device_replacement : Option String
  brand_replacement : Option String
  model_replacement : Option String
  device_replacement_has_group : Bool
  brand_replacement_has_group : Bool
  model_replacement_has_group : Bool

/-- Family value computed by `device::Matcher::try_parse`: the resolved
`device_replacement` when configured, otherwise capture group 1 normalized
empty-to-absent. -/
def Matcher.familyOf (m : Matcher) (captures : Captures) : Option String :=
  match m.device_replacement with
  | some device_replacement =>
    some (replace_cow device_replacement m.device_replacement_has_group captures)
  | none => (captures.get 1).bind none_if_empty

/-- Brand value computed by `device::Matcher::try_parse`: the resolved
`brand_replacement` normalized empty-to-absent when configured, otherwise
absent. -/
def Matcher.brandOf (m : Matcher) (captures : Captures) : Option String :=
  (m.brand_replacement.map
    (fun br => replace_cow br m.brand_replacement_has_group captures)).bind none_if_empty

/-- Model value computed by `device::Matcher::try_parse`: the resolved
`model_replacement` normalized empty-to-absent when configured, otherwise
capture group 1 normalized empty-to-absent. -/
def Matcher.modelOf (m : Matcher) (captures : Captures) : Option String :=
  match m.model_replacement with
  | some model_replacement =>
    none_if_empty (replace_cow model_replacement m.model_replacement_has_group captures)
  | none => (captures.get 1).bind none_if_empty

/-- Model of `device::Matcher::try_parse`: an `is_match` pre-check, then
captures are taken and the three fields extracted; a missing family value
aborts the rule. -/
def Matcher.try_parse (m : Matcher) (text : String) : Option Device :=
  if !(m.regex.is_match text) then none
  else
    match m.regex.captures text with
    | some captures =>
      match m.familyOf captures with
      | some family =>
        some { family := family, brand := m.brandOf captures, model := m.modelOf captures }
      | none => none
    | none => none

/-- Pattern string that `device::Matcher::try_from` hands to the regex
compiler: the flag string, when present and non-empty, is prepended in
inline-flag syntax, then escapes are repaired. -/
def compiled_pattern (entry : DeviceParserEntry) : String :=
  clean_escapes
    (if (entry.regex_flag.map String.isEmpty).getD true then entry.regex
     else "(?" ++ entry.regex_flag.getD "" ++ ")" ++ entry.regex)

/-- Compiled-size limit that `device::Matcher::try_from` sets on the regex
builder. -/
def compiled_size_limit : Nat := 20 * 2 ^ 20

/-- Model of `device::Matcher::try_from`; the external regex compiler is the
parameter `build`, receiving the final pattern string and the effective
size limit. -/
def Matcher.try_from (build : String → Nat → Except String Regex)
    (entry : DeviceParserEntry) : Except Error Matcher :=
  match build (compiled_pattern entry) compiled_size_limit with
  | Except.error e => Except.error (Error.Regex e)
  | Except.ok regex =>
    Except.ok
      { regex := regex
      , device_replacement_has_group := (entry.device_replacement.map has_group).getD false
      , device_replacement := entry.device_replacement
      , brand_replacement_has_group := (entry.brand_replacement.map has_group).getD false
      , brand_replacement := entry.brand_replacement
      , model_replacement_has_group := (entry.model_replacement.map has_group).getD false
      , model_replacement := entry.model_replacement }

end device

namespace os

/-- Model of `parser::os::Error`, holding the regex compiler's error. -/
inductive Error where
  | Regex : String → Error
deriving DecidableEq

/-- Model of `parser::os::Matcher` (os.rs). -/
structure Matcher where
  regex : Regex
  os_replacement : Option String
  os_v1_replacement : Option String
  os_v2_replacement : Option String
  os_v3_replacement : Option String
  os_replacement_has_group : Bool
  os_v1_replacement_has_group : Bool
  os_v2_replacement_has_group : Bool
  os_v3_replacement_has_group : Bool

/-- Family value computed by `os::Matcher::try_parse`. -/
def Matcher.familyOf (m : Matcher) (captures : Captures) : Option String :=
  match m.os_replacement with
  | some os_replacement =>
    some (replace_cow os_replacement m.os_replacement_has_group captures)
  | none => (captures.get 1).bind none_if_empty

/-- Major value computed by `os::Matcher::try_parse`: the resolved
`os_v1_replacement` normalized empty-to-absent when configured, otherwise
capture group 2 normalized empty-to-absent. -/
def Matcher.majorOf (m : Matcher) (captures : Captures) : Option String :=
  match m.os_v1_replacement with
  | some os_v1_replacement =>
    none_if_empty (replace_cow os_v1_replacement m.os_v1_replacement_has_group captures)
  | none => (captures.get 2).bind none_if_empty

/-- Minor value computed by `os::Matcher::try_parse` (template or capture
group 3). -/
def Matcher.minorOf (m : Matcher) (captures : Captures) : Option String :=
  match m.os_v2_replacement with
  | some os_v2_replacement =>
    none_if_empty (replace_cow os_v2_replacement m.os_v2_replacement_has_group captures)
  | none => (captures.get 3).bind none_if_empty

/-- Patch value computed by `os::Matcher::try_parse` (template or capture
group 4). -/
def Matcher.patchOf (m : Matcher) (captures : Captures) : Option String :=
  match m.os_v3_replacement with
  | some os_v3_replacement =>
    none_if_empty (replace_cow os_v3_replacement m.os_v3_replacement_has_group captures)
  | none => (captures.get 4).bind none_if_empty

/-- Patch-minor value computed by `os::Matcher::try_parse`: always capture
group 5 normalized empty-to-absent (no template exists for it). -/
def Matcher.patch_minorOf (_m : Matcher) (captures : Captures) : Option String :=
  (captures.get 5).bind none_if_empty

/-- Model of `os::Matcher::try_parse`. -/
def Matcher.try_parse (m : Matcher) (text : String) : Option OS :=
  if !(m.regex.is_match text) then none
  else
    match m.regex.captures text with
    | some captures =>
      match m.familyOf captures with
      | some family =>
        some { family := family
             , major := m.majorOf captures
             , minor := m.minorOf captures
             , patch := m.patchOf captures
             , patch_minor := m.patch_minorOf captures }
      | none => none
    | none => none

/-- Pattern string that `os::Matcher::try_from` hands to the regex compiler:
only escape repair is applied — the flag string of the rule record is not
consulted. -/
def compiled_pattern (entry : OSParserEntry) : String :=
  clean_escapes entry.regex

/-- Compiled-size limit in effect for `os::Matcher::try_from`: the source
calls `Regex::new`, so the regex crate's default applies. -/
def compiled_size_limit : Nat := DEFAULT_SIZE_LIMIT

/-- Model of `os::Matcher::try_from`; the external regex compiler is the
parameter `build`. -/
def Matcher.try_from (build : String → Nat → Except String Regex)
    (entry : OSParserEntry) : Except Error Matcher :=
  match build (compiled_pattern entry) compiled_size_limit with
  | Except.error e => Except.error (Error.Regex e)
  | Except.ok regex =>
    Except.ok
      { regex := regex
      , os_replacement_has_group := (entry.os_replacement.map has_group).getD false
      , os_replacement := entry.os_replacement
      , os_v1_replacement_has_group := (entry.os_v1_replacement.map has_group).getD false
      , os_v1_replacement := entry.os_v1_replacement
      , os_v2_replacement_has_group := (entry.os_v2_replacement.map has_group).getD false
      , os_v2_replacement := entry.os_v2_replacement
      , os_v3_replacement_has_group := (entry.os_v3_replacement.map has_group).getD false
      , os_v3_replacement := entry.os_v3_replacement }

end os

namespace user_agent

/-- Model of `parser::user_agent::Error`, holding the regex compiler's
error. -/
inductive Error where
  | Regex : String → Error
deriving DecidableEq

/-- Model of `parser::user_agent::Matcher` (user_agent.rs): only the family
template carries a has-group flag. -/
structure Matcher where
  regex : Regex
  family_replacement_has_group : Bool
  family_replacement : Option String
  v1_replacement : Option String
  v2_replacement : Option String
  v3_replacement : Option String

/-- Family value computed by `user_agent::Matcher::try_parse`. -/
def Matcher.familyOf (m : Matcher) (captures : Captures) : Option String :=
  match m.family_replacement with
  | some family_replacement =>
    some (replace_cow family_replacement m.family_replacement_has_group captures)
  | none => (captures.get 1).bind none_if_empty

/-- Major value computed by `user_agent::Matcher::try_parse`: the
`v1_replacement` text verbatim when configured (the source clones it with
no expansion and no empty normalization), otherwise capture group 2
normalized empty-to-absent. -/
def Matcher.majorOf (m : Matcher) (captures : Captures) : Option String :=
  match m.v1_replacement with
  | some v1_replacement => some v1_replacement
  | none => (captures.get 2).bind none_if_empty

/-- Minor value computed by `user_agent::Matcher::try_parse` (verbatim
template or capture group 3). -/
def Matcher.minorOf (m : Matcher) (captures : Captures) : Option String :=
  match m.v2_replacement with
  | some v2_replacement => some v2_replacement
  | none => (captures.get 3).bind none_if_empty

/-- Patch value computed by `user_agent::Matcher::try_parse` (verbatim
template or capture group 4). -/
def Matcher.patchOf (m : Matcher) (captures : Captures) : Option String :=
  match m.v3_replacement with
  | some v3_replacement => some v3_replacement
  | none => (captures.get 4).bind none_if_empty

/-- Model of `user_agent::Matcher::try_parse` (no `is_match` pre-check in
this category). -/
def Matcher.try_parse (m : Matcher) (text : String) : Option UserAgent :=
  match m.regex.captures text with
  | some captures =>
    match m.familyOf captures with
    | some family =>
      some { family := family
           , major := m.majorOf captures
           , minor := m.minorOf captures
           , patch := m.patchOf captures }
    | none => none
  | none => none

/-- Pattern string that `user_agent::Matcher::try_from` hands to the regex
compiler: only escape repair is applied — the flag string of the rule
record is not consulted. -/
def compiled_pattern (entry : UserAgentParserEntry) : String :=
  clean_escapes entry.regex

/-- Compiled-size limit that `user_agent::Matcher::try_from` sets on the
regex builder. -/
def compiled_size_limit : Nat := 20 * 2 ^ 20

/-- Model of `user_agent::Matcher::try_from`; the external regex compiler is
the parameter `build`. -/
def Matcher.try_from (build : String → Nat → Except String Regex)
    (entry : UserAgentParserEntry) : Except Error Matcher :=
  match build (compiled_pattern entry) compiled_size_limit with
  | Except.error e => Except.error (Error.Regex e)
  | Except.ok regex =>
    Except.ok
      { regex := regex
      , family_replacement_has_group := (entry.family_replacement.map has_group).getD false
      , family_replacement := entry.family_replacement
      , v1_replacement := entry.v1_replacement
      , v2_replacement := entry.v2_replacement
      , v3_replacement := entry.v3_replacement }

end user_agent

/-- Model of `UserAgentParser` (mod.rs): the three ordered matcher lists. -/
structure UserAgentParser where
  device_matchers : List device.Matcher
  os_matchers : List os.Matcher
  user_agent_matchers : List user_agent.Matcher

/-- Model of `UserAgentParser::parse_device` (mod.rs): first successful
matcher in order, default on total failure. -/
def UserAgentParser.parse_device (p : UserAgentParser) (ua : String) : Device :=
  (p.device_matchers.findSome? (fun matcher => matcher.try_parse ua)).getD Device.default

/-- Model of `UserAgentParser::parse_os` (mod.rs). -/
def UserAgentParser.parse_os (p : UserAgentParser) (ua : String) : OS :=
  (p.os_matchers.findSome? (fun matcher => matcher.try_parse ua)).getD OS.default

/-- Model of `UserAgentParser::parse_user_agent` (mod.rs). -/
def UserAgentParser.parse_user_agent (p : UserAgentParser) (ua : String) : UserAgent :=
  (p.user_agent_matchers.findSome? (fun matcher => matcher.try_parse ua)).getD UserAgent.default

/-- Helper: `none_if_empty` never yields `some ""`. -/
theorem none_if_empty_ne_some_empty (s : String) : none_if_empty s ≠ some "" := by
  unfold none_if_empty
  by_cases h : s.isEmpty
  · simp [h]
  · simp [h]
    intro hs
    subst hs
    exact h rfl

/-- Helper: binding through `none_if_empty` never yields `some ""`. -/
theorem bind_none_if_empty_ne_some_empty (o : Option String) :
    o.bind none_if_empty ≠ some "" := by
  cases o with
  | none => simp
  | some s => simpa using none_if_empty_ne_some_empty s

/-- Helper: successful `device::try_parse` in terms of the field
extractors. -/
theorem device_try_parse_some (m : device.Matcher) (t : String) (c : Captures)
    (fam : String) (hc : m.regex.captures t = some c)
    (hf : m.familyOf c = some fam) :
    m.try_parse t = some { family := fam, brand := m.brandOf c, model := m.modelOf c } := by
  unfold device.Matcher.try_parse Regex.is_match
  rw [hc]
  simp [hf]

/-- Helper: `device::try_parse` fails when the pattern does not match. -/
theorem device_try_parse_none_of_captures_none (m : device.Matcher) (t : String)
    (hc : m.regex.captures t = none) : m.try_parse t = none := by
  unfold device.Matcher.try_parse Regex.is_match
  rw [hc]
  simp

/-- Helper: `device::try_parse` fails when no family value is obtained. -/
theorem device_try_parse_none_of_family_none (m : device.Matcher) (t : String)
    (c : Captures) (hc : m.regex.captures t = some c)
    (hf : m.familyOf c = none) : m.try_parse t = none := by
  unfold device.Matcher.try_parse Regex.is_match
  rw [hc]
  simp [hf]

/-- Helper: inversion of a successful `device::try_parse`. -/
theorem device_try_parse_inv (m : device.Matcher) (t : String) (d : Device)
    (h : m.try_parse t = some d) :
    ∃ c, m.regex.captures t = some c ∧ m.familyOf c = some d.family ∧
      d.brand = m.brandOf c ∧ d.model = m.modelOf c := by
  unfold device.Matcher.try_parse Regex.is_match at h
  cases hc : m.regex.captures t with
  | none => rw [hc] at h; simp at h
  | some c =>
    rw [hc] at h
    simp at h
    cases hf : m.familyOf c with
    | none => rw [hf] at h; simp at h
    | some fam =>
      rw [hf] at h
      simp at h
      exact ⟨c, rfl, by rw [← h]; exact hf, by rw [← h], by rw [← h]⟩

/-- Helper: successful `os::try_parse` in terms of the field extractors. -/
theorem os_try_parse_some (m : os.Matcher) (t : String) (c : Captures)
    (fam : String) (hc : m.regex.captures t = some c)
    (hf : m.familyOf c = some fam) :
    m.try_parse t = some { family := fam, major := m.majorOf c, minor := m.minorOf c
                         , patch := m.patchOf c, patch_minor := m.patch_minorOf c } := by
  unfold os.Matcher.try_parse Regex.is_match
  rw [hc]
  simp [hf]

/-- Helper: `os::try_parse` fails when the pattern does not match. -/
theorem os_try_parse_none_of_captures_none (m : os.Matcher) (t : String)
    (hc : m.regex.captures t = none) : m.try_parse t = none := by
  unfold os.Matcher.try_parse Regex.is_match
  rw [hc]
  simp

/-- Helper: `os::try_parse` fails when no family value is obtained. -/
theorem os_try_parse_none_of_family_none (m : os.Matcher) (t : String)
    (c : Captures) (hc : m.regex.captures t = some c)
    (hf : m.familyOf c = none) : m.try_parse t = none := by
  unfold os.Matcher.try_parse Regex.is_match
  rw [hc]
  simp [hf]

/-- Helper: inversion of a successful `os::try_parse`. -/
theorem os_try_parse_inv (m : os.Matcher) (t : String) (o : OS)
    (h : m.try_parse t = some o) :
    ∃ c, m.regex.captures t = some c ∧ m.familyOf c = some o.family ∧
      o.major = m.majorOf c ∧ o.minor = m.minorOf c ∧
      o.patch = m.patchOf c ∧ o.patch_minor = m.patch_minorOf c := by
  unfold os.Matcher.try_parse Regex.is_match at h
  cases hc : m.regex.captures t with
  | none => rw [hc] at h; simp at h
  | some c =>
    rw [hc] at h
    simp at h
    cases hf : m.familyOf c with
    | none => rw [hf] at h; simp at h
    | some fam =>
      rw [hf] at h
      simp at h
      exact ⟨c, rfl, by rw [← h]; exact hf, by rw [← h], by rw [← h], by rw [← h], by rw [← h]⟩

/-- Helper: successful `user_agent::try_parse` in terms of the field
extractors. -/
theorem ua_try_parse_some (m : user_agent.Matcher) (t : String) (c : Captures)
    (fam : String) (hc : m.regex.captures t = some c)
    (hf : m.familyOf c = some fam) :
    m.try_parse t = some { family := fam, major := m.majorOf c
                         , minor := m.minorOf c, patch := m.patchOf c } := by
  unfold user_agent.Matcher.try_parse
  rw [hc]
  simp [hf]

/-- Helper: `user_agent::try_parse` fails when the pattern does not match. -/
theorem ua_try_parse_none_of_captures_none (m : user_agent.Matcher) (t : String)
    (hc : m.regex.captures t = none) : m.try_parse t = none := by
  unfold user_agent.Matcher.try_parse
  rw [hc]

/-- Helper: `user_agent::try_parse` fails when no family value is
obtained. -/
theorem ua_try_parse_none_of_family_none (m : user_agent.Matcher) (t : String)
    (c : Captures) (hc : m.regex.captures t = some c)
    (hf : m.familyOf c = none) : m.try_parse t = none := by
  unfold user_agent.Matcher.try_parse
  rw [hc]
  simp [hf]

/-- Helper: inversion of a successful `user_agent::try_parse`. -/
theorem ua_try_parse_inv (m : user_agent.Matcher) (t : String) (u : UserAgent)
    (h : m.try_parse t = some u) :
    ∃ c, m.regex.captures t = some c ∧ m.familyOf c = some u.family ∧
      u.major = m.majorOf c ∧ u.minor = m.minorOf c ∧ u.patch = m.patchOf c := by
  unfold user_agent.Matcher.try_parse at h
  cases hc : m.regex.captures t with
  | none => rw [hc] at h; simp at h
  | some c =>
    rw [hc] at h
    simp at h
    cases hf : m.familyOf c with
    | none => rw [hf] at h; simp at h
    | some fam =>
      rw [hf] at h
      simp at h
      exact ⟨c, rfl, by rw [← h]; exact hf, by rw [← h], by rw [← h], by rw [← h]⟩

/-- Helper: `findSome?` over a list whose first members all fail returns the
first success. -/
theorem findSome?_first_success {α β : Type} (f : α → Option β)
    (pre : List α) (a : α) (rest : List α) (b : β)
    (hpre : ∀ x ∈ pre, f x = none) (ha : f a = some b) :
    (pre ++ a :: rest).findSome? f = some b := by
  induction pre with
  | nil => simp [List.findSome?_cons, ha]
  | cons p ps ih =>
    have hp : f p = none := hpre p (by simp)
    simp only [List.cons_append, List.findSome?_cons, hp]
    exact ih (fun x hx => hpre x (by simp [hx]))

/-- Helper: absence of two consecutive backslashes in a character list. -/
def noDoubleBS : List Char → Bool
  | [] => true
  | [_] => true
  | a :: b :: rest => !(a = '\\' && b = '\\') && noDoubleBS (b :: rest)

/-- Helper: `noDoubleBS` passes to the tail. -/
theorem noDoubleBS_tail (a : Char) (l : List Char)
    (h : noDoubleBS (a :: l) = true) : noDoubleBS l = true := by
  cases l with
  | nil => rfl
  | cons b rest =>
    simp only [noDoubleBS, Bool.and_eq_true] at h
    exact h.2

/-- Helper: under `noDoubleBS`, a backslash is never followed by another. -/
theorem noDoubleBS_head (a b : Char) (rest : List Char)
    (h : noDoubleBS (a :: b :: rest) = true) (ha : a = '\\') : ¬b = '\\' := by
  subst ha
  intro hb
  subst hb
  simp [noDoubleBS] at h

/-- Helper: the escape-repair scan leaves a non-backslash head in place. -/
theorem clean_escapesAux_cons_ne_bs (c : Char) (m : List Char) (h : ¬c = '\\') :
    clean_escapesAux (c :: m) = c :: clean_escapesAux m := by
  cases m with
  | nil => rfl
  | cons x xs => simp [clean_escapesAux, h]

/-- Helper: unfolding of the escape-repair scan at a repairable pair. -/
theorem clean_escapesAux_cons_cons_pos (a b : Char) (m : List Char)
    (h : (a = '\\' && (b = '!' || b = ' ' || b = '/')) = true) :
    clean_escapesAux (a :: b :: m) = b :: clean_escapesAux m := by
  simp only [clean_escapesAux]
  rw [if_pos h]

/-- Helper: unfolding of the escape-repair scan at a non-repairable pair. -/
theorem clean_escapesAux_cons_cons_neg (a b : Char) (m : List Char)
    (h : ¬(a = '\\' && (b = '!' || b = ' ' || b = '/')) = true) :
    clean_escapesAux (a :: b :: m) = a :: clean_escapesAux (b :: m) := by
  simp only [clean_escapesAux]
  rw [if_neg h]

/-- Helper: the escape-repair scan is idempotent on lists with no double
backslash. -/
theorem clean_escapesAux_idem (l : List Char) :
    noDoubleBS l = true →
      clean_escapesAux (clean_escapesAux l) = clean_escapesAux l := by
  induction l using clean_escapesAux.induct with
  | case1 => intro _; rfl
  | case2 c => intro _; rfl
  | case3 a b rest hcond ih =>
    intro h
    have hb : ¬b = '\\' := by
      have h2 := Bool.and_elim_right hcond
      simp only [Bool.or_eq_true, decide_eq_true_eq] at h2
      rcases h2 with (h2 | h2) | h2 <;> subst h2 <;> decide
    rw [clean_escapesAux_cons_cons_pos a b rest hcond]
    rw [clean_escapesAux_cons_ne_bs b _ hb]
    rw [ih (noDoubleBS_tail b rest (noDoubleBS_tail a (b :: rest) h))]
  | case4 a b rest hcond ih =>
    intro h
    have hbr : noDoubleBS (b :: rest) = true := noDoubleBS_tail a (b :: rest) h
    rw [clean_escapesAux_cons_cons_neg a b rest hcond]
    by_cases ha : a = '\\'
    · subst ha
      have hb : ¬b = '\\' := noDoubleBS_head '\\' b rest h rfl
      rw [clean_escapesAux_cons_ne_bs b rest hb]
      rw [clean_escapesAux_cons_cons_neg '\\' b (clean_escapesAux rest) hcond]
      rw [← clean_escapesAux_cons_ne_bs b rest hb]
      rw [ih hbr]
    · rw [clean_escapesAux_cons_ne_bs a _ ha]
      rw [ih hbr]

/-- Concrete regex that matches every input, capturing the whole of it and
nothing else. -/
def matchAllRegex : Regex :=
  Regex.mk (fun t => some (Captures.mk t []))

/-- Concrete regex matching only the input `Nexus 5`, with group 1 `Nexus`
and group 2 `5`. -/
def nexusRegex : Regex :=
  Regex.mk (fun t =>
    if t = "Nexus 5" then some (Captures.mk "Nexus 5" [some "Nexus", some "5"])
    else none)

/-- Concrete regex matching only the input `Chrome 9`, with group 1 `Chrome`
and group 2 `9`. -/
def chromeRegex : Regex :=
  Regex.mk (fun t =>
    if t = "Chrome 9" then some (Captures.mk "Chrome 9" [some "Chrome", some "9"])
    else none)

/-- Concrete device matcher whose family template is the empty string. -/
def emptyFamilyDeviceMatcher : device.Matcher :=
  { regex := matchAllRegex
  , device_replacement := some ""
  , brand_replacement := none
  , model_replacement := none
  , device_replacement_has_group := false
  , brand_replacement_has_group := false
  , model_replacement_has_group := false }

/-- Concrete device matcher with no templates whose pattern captures no
group beyond the whole match. -/
def noTemplateDeviceMatcher : device.Matcher :=
  { regex := matchAllRegex
  , device_replacement := none
  , brand_replacement := none
  , model_replacement := none
  , device_replacement_has_group := false
  , brand_replacement_has_group := false
  , model_replacement_has_group := false }

/-- C1 counterexample: a device rule whose configured family template
resolves to the empty string still yields a result, with an empty family,
instead of yielding no result for this rule as the claim states. -/
theorem device_empty_family_template_still_matches :
    replace_cow "" false (Captures.mk "x" []) = "" ∧
    device.Matcher.try_parse emptyFamilyDeviceMatcher "x" =
      some { family := "", brand := none, model := none } ∧
    device.Matcher.try_parse emptyFamilyDeviceMatcher "x" ≠ none := by
  refine ⟨rfl, by decide, by decide⟩

/-- C1 (amended): in every category, when no family template is configured
and capture group 1 is absent or empty the matcher yields no result; when a
family template is configured, a matching input always yields a result
whose family is the template's resolution, even when that resolution is the
empty string. -/
theorem family_empty_resolution :
    ∀ (t : String),
      (∀ (md : device.Matcher) (c : Captures),
        md.regex.captures t = some c → md.device_replacement = none →
        (c.get 1).bind none_if_empty = none → md.try_parse t = none) ∧
      (∀ (md : device.Matcher) (c : Captures) (r : String),
        md.regex.captures t = some c → md.device_replacement = some r →
        ∃ d, md.try_parse t = some d ∧
          d.family = replace_cow r md.device_replacement_has_group c) ∧
      (∀ (mo : os.Matcher) (c : Captures),
        mo.regex.captures t = some c → mo.os_replacement = none →
        (c.get 1).bind none_if_empty = none → mo.try_parse t = none) ∧
      (∀ (mo : os.Matcher) (c : Captures) (r : String),
        mo.regex.captures t = some c → mo.os_replacement = some r →
        ∃ o, mo.try_parse t = some o ∧
          o.family = replace_cow r mo.os_replacement_has_group c) ∧
      (∀ (mu : user_agent.Matcher) (c : Captures),
        mu.regex.captures t = some c → mu.family_replacement = none →
        (c.get 1).bind none_if_empty = none → mu.try_parse t = none) ∧
      (∀ (mu : user_agent.Matcher) (c : Captures) (r : String),
        mu.regex.captures t = some c → mu.family_replacement = some r →
        ∃ u, mu.try_parse t = some u ∧
          u.family = replace_cow r mu.family_replacement_has_group c) := by
  intro t
  refine ⟨?_, ?_, ?_, ?_, ?_, ?_⟩
  · intro md c hc hr hg
    refine device_try_parse_none_of_family_none md t c hc ?_
    unfold device.Matcher.familyOf
    rw [hr, hg]
  · intro md c r hc hr
    have hf : md.familyOf c = some (replace_cow r md.device_replacement_has_group c) := by
      unfold device.Matcher.familyOf
      rw [hr]
    exact ⟨_, device_try_parse_some md t c _ hc hf, rfl⟩
  · intro mo c hc hr hg
    refine os_try_parse_none_of_family_none mo t c hc ?_
    unfold os.Matcher.familyOf
    rw [hr, hg]
  · intro mo c r hc hr
    have hf : mo.familyOf c = some (replace_cow r mo.os_replacement_has_group c) := by
      unfold os.Matcher.familyOf
      rw [hr]
    exact ⟨_, os_try_parse_some mo t c _ hc hf, rfl⟩
  · intro mu c hc hr hg
    refine ua_try_parse_none_of_family_none mu t c hc ?_
    unfold user_agent.Matcher.familyOf
    rw [hr, hg]
  · intro mu c r hc hr
    have hf : mu.familyOf c = some (replace_cow r mu.family_replacement_has_group c) := by
      unfold user_agent.Matcher.familyOf
      rw [hr]
    exact ⟨_, ua_try_parse_some mu t c _ hc hf, rfl⟩

/-- C1 witness: the amended theorem applied to a concrete matcher with no
family template and no capture group 1. -/
theorem family_empty_resolution_app :
    device.Matcher.try_parse noTemplateDeviceMatcher "x" = none :=
  (family_empty_resolution "x").1 noTemplateDeviceMatcher (Captures.mk "x" [])
    rfl rfl (by decide)

/-- Concrete user-agent matcher with an empty family template and an empty
v1 template. -/
def emptyFieldsUAMatcher : user_agent.Matcher :=
  { regex := matchAllRegex
  , family_replacement_has_group := false
  , family_replacement := some ""
  , v1_replacement := some ""
  , v2_replacement := none
  , v3_replacement := none }

/-- C2 counterexample: a user-agent rule with an empty family template and
an empty v1 template produces an output whose family is the empty string
and whose major field is `some ""`, so produced fields are not always
absent-or-nonempty. -/
theorem user_agent_empty_string_fields :
    user_agent.Matcher.try_parse emptyFieldsUAMatcher "x" =
      some { family := "", major := some "", minor := none, patch := none } := by
  decide

/-- C2 (amended): Device brand and model, and every OS optional field, are
always absent or non-empty, and a family obtained without a template is
non-empty; but a configured family template may surface an empty family,
and a configured UserAgent v1/v2/v3 template is surfaced verbatim, so only
the template-free UserAgent optional fields are guaranteed
absent-or-nonempty. -/
theorem nonempty_field_invariants :
    ∀ (t : String),
      (∀ (md : device.Matcher) (d : Device), md.try_parse t = some d →
        d.brand ≠ some "" ∧ d.model ≠ some "" ∧
        (md.device_replacement = none → d.family ≠ "")) ∧
      (∀ (mo : os.Matcher) (o : OS), mo.try_parse t = some o →
        o.major ≠ some "" ∧ o.minor ≠ some "" ∧ o.patch ≠ some "" ∧
        o.patch_minor ≠ some "" ∧ (mo.os_replacement = none → o.family ≠ "")) ∧
      (∀ (mu : user_agent.Matcher) (u : UserAgent), mu.try_parse t = some u →
        (mu.v1_replacement = none → u.major ≠ some "") ∧
        (mu.v2_replacement = none → u.minor ≠ some "") ∧
        (mu.v3_replacement = none → u.patch ≠ some "") ∧
        (mu.family_replacement = none → u.family ≠ "")) := by
  intro t
  refine ⟨?_, ?_, ?_⟩
  · intro md d h
    obtain ⟨c, hc, hfam, hb, hm⟩ := device_try_parse_inv md t d h
    refine ⟨?_, ?_, ?_⟩
    · rw [hb]
      exact bind_none_if_empty_ne_some_empty _
    · rw [hm]
      unfold device.Matcher.modelOf
      cases md.model_replacement with
      | some r => exact none_if_empty_ne_some_empty _
      | none => exact bind_none_if_empty_ne_some_empty _
    · intro hr hf
      rw [hf] at hfam
      unfold device.Matcher.familyOf at hfam
      rw [hr] at hfam
      exact bind_none_if_empty_ne_some_empty _ hfam
  · intro mo o h
    obtain ⟨c, hc, hfam, h2, h3, h4, h5⟩ := os_try_parse_inv mo t o h
    refine ⟨?_, ?_, ?_, ?_, ?_⟩
    · rw [h2]
      unfold os.Matcher.majorOf
      cases mo.os_v1_replacement with
      | some r => exact none_if_empty_ne_some_empty _
      | none => exact bind_none_if_empty_ne_some_empty _
    · rw [h3]
      unfold os.Matcher.minorOf
      cases mo.os_v2_replacement with
      | some r => exact none_if_empty_ne_some_empty _
      | none => exact bind_none_if_empty_ne_some_empty _
    · rw [h4]
      unfold os.Matcher.patchOf
      cases mo.os_v3_replacement with
      | some r => exact none_if_empty_ne_some_empty _
      | none => exact bind_none_if_empty_ne_some_empty _
    · rw [h5]
      unfold os.Matcher.patch_minorOf
      exact bind_none_if_empty_ne_some_empty _
    · intro hr hf
      rw [hf] at hfam
      unfold os.Matcher.familyOf at hfam
      rw [hr] at hfam
      exact bind_none_if_empty_ne_some_empty _ hfam
  · intro mu u h
    obtain ⟨c, hc, hfam, h2, h3, h4⟩ := ua_try_parse_inv mu t u h
    refine ⟨?_, ?_, ?_, ?_⟩
    · intro hr
      rw [h2]
      unfold user_agent.Matcher.majorOf
      rw [hr]
      exact bind_none_if_empty_ne_some_empty _
    · intro hr
      rw [h3]
      unfold user_agent.Matcher.minorOf
      rw [hr]
      exact bind_none_if_empty_ne_some_empty _
    · intro hr
      rw [h4]
      unfold user_agent.Matcher.patchOf
      rw [hr]
      exact bind_none_if_empty_ne_some_empty _
    · intro hr hf
      rw [hf] at hfam
      unfold user_agent.Matcher.familyOf at hfam
      rw [hr] at hfam
      exact bind_none_if_empty_ne_some_empty _ hfam

/-- Concrete device matcher with no templates over a pattern with two
capture groups. -/
def plainDeviceMatcher : device.Matcher :=
  { regex := nexusRegex
  , device_replacement := none
  , brand_replacement := none
  , model_replacement := none
  , device_replacement_has_group := false
  , brand_replacement_has_group := false
  , model_replacement_has_group := false }

/-- C2 witness: the amended invariant applied to a concrete successful
device parse. -/
theorem nonempty_field_invariants_app :
    ({ family := "Nexus", brand := none, model := some "Nexus" } : Device).brand ≠ some "" ∧
    ({ family := "Nexus", brand := none, model := some "Nexus" } : Device).model ≠ some "" := by
  have h := (nonempty_field_invariants "Nexus 5").1 plainDeviceMatcher
    { family := "Nexus", brand := none, model := some "Nexus" } (by decide)
  exact ⟨h.1, h.2.1⟩

/-- C3: in every category, the classifier returns the output of the first
matcher in configured order whose try_parse succeeds: with every matcher
before R1 failing and R1 and R2 both matching, the list with R1 earlier
gives R1's output and the swapped list gives R2's output. -/
theorem classifier_first_match_wins :
    ∀ (t : String),
      (∀ (pre mid post : List device.Matcher) (R1 R2 : device.Matcher) (d1 d2 : Device),
        (∀ m ∈ pre, m.try_parse t = none) →
        R1.try_parse t = some d1 → R2.try_parse t = some d2 →
        UserAgentParser.parse_device ⟨pre ++ R1 :: (mid ++ R2 :: post), [], []⟩ t = d1 ∧
        UserAgentParser.parse_device ⟨pre ++ R2 :: (mid ++ R1 :: post), [], []⟩ t = d2) ∧
      (∀ (pre mid post : List os.Matcher) (R1 R2 : os.Matcher) (o1 o2 : OS),
        (∀ m ∈ pre, m.try_parse t = none) →
        R1.try_parse t = some o1 → R2.try_parse t = some o2 →
        UserAgentParser.parse_os ⟨[], pre ++ R1 :: (mid ++ R2 :: post), []⟩ t = o1 ∧
        UserAgentParser.parse_os ⟨[], pre ++ R2 :: (mid ++ R1 :: post), []⟩ t = o2) ∧
      (∀ (pre mid post : List user_agent.Matcher) (R1 R2 : user_agent.Matcher)
          (u1 u2 : UserAgent),
        (∀ m ∈ pre, m.try_parse t = none) →
        R1.try_parse t = some u1 → R2.try_parse t = some u2 →
        UserAgentParser.parse_user_agent ⟨[], [], pre ++ R1 :: (mid ++ R2 :: post)⟩ t = u1 ∧
        UserAgentParser.parse_user_agent ⟨[], [], pre ++ R2 :: (mid ++ R1 :: post)⟩ t = u2) := by
  intro t
  refine ⟨?_, ?_, ?_⟩
  · intro pre mid post R1 R2 d1 d2 hpre h1 h2
    constructor
    · show (List.findSome? (fun matcher => matcher.try_parse t)
        (pre ++ R1 :: (mid ++ R2 :: post))).getD Device.default = d1
      rw [findSome?_first_success _ pre R1 (mid ++ R2 :: post) d1 hpre h1]
      rfl
    · show (List.findSome? (fun matcher => matcher.try_parse t)
        (pre ++ R2 :: (mid ++ R1 :: post))).getD Device.default = d2
      rw [findSome?_first_success _ pre R2 (mid ++ R1 :: post) d2 hpre h2]
      rfl
  · intro pre mid post R1 R2 o1 o2 hpre h1 h2
    constructor
    · show (List.findSome? (fun matcher => matcher.try_parse t)
        (pre ++ R1 :: (mid ++ R2 :: post))).getD OS.default = o1
      rw [findSome?_first_success _ pre R1 (mid ++ R2 :: post) o1 hpre h1]
      rfl
    · show (List.findSome? (fun matcher => matcher.try_parse t)
        (pre ++ R2 :: (mid ++ R1 :: post))).getD OS.default = o2
      rw [findSome?_first_success _ pre R2 (mid ++ R1 :: post) o2 hpre h2]
      rfl
  · intro pre mid post R1 R2 u1 u2 hpre h1 h2
    constructor
    · show (List.findSome? (fun matcher => matcher.try_parse t)
        (pre ++ R1 :: (mid ++ R2 :: post))).getD UserAgent.default = u1
      rw [findSome?_first_success _ pre R1 (mid ++ R2 :: post) u1 hpre h1]
      rfl
    · show (List.findSome? (fun matcher => matcher.try_parse t)
        (pre ++ R2 :: (mid ++ R1 :: post))).getD UserAgent.default = u2
      rw [findSome?_first_success _ pre R2 (mid ++ R1 :: post) u2 hpre h2]
      rfl

/-- Concrete device matcher whose family template is the literal `A`. -/
def famAMatcher : device.Matcher :=
  { regex := matchAllRegex
  , device_replacement := some "A"
  , brand_replacement := none
  , model_replacement := none
  , device_replacement_has_group := false
  , brand_replacement_has_group := false
  , model_replacement_has_group := false }

/-- Concrete device matcher whose family template is the literal `B`. -/
def famBMatcher : device.Matcher :=
  { regex := matchAllRegex
  , device_replacement := some "B"
  , brand_replacement := none
  , model_replacement := none
  , device_replacement_has_group := false
  , brand_replacement_has_group := false
  , model_replacement_has_group := false }

/-- C3 witness: two concrete device matchers that both match; the earlier
one wins, and swapping them swaps the result. -/
theorem classifier_first_match_wins_app :
    UserAgentParser.parse_device ⟨[famAMatcher, famBMatcher], [], []⟩ "x" =
      { family := "A", brand := none, model := none } ∧
    UserAgentParser.parse_device ⟨[famBMatcher, famAMatcher], [], []⟩ "x" =
      { family := "B", brand := none, model := none } := by
  have h := (classifier_first_match_wins "x").1 [] [] [] famAMatcher famBMatcher
    { family := "A", brand := none, model := none }
    { family := "B", brand := none, model := none }
    (fun m hm => nomatch hm) (by decide) (by decide)
  exact ⟨h.1, h.2⟩

/-- Concrete user-agent matcher with a group-referencing v1 template and no
family template. -/
def verbatimUAMatcher : user_agent.Matcher :=
  { regex := chromeRegex
  , family_replacement_has_group := false
  , family_replacement := none
  , v1_replacement := some "$1"
  , v2_replacement := none
  , v3_replacement := none }

/-- C4 counterexample: under a configured user-agent v1 template the major
field is the template text verbatim (`some "$1"`), not the Template
Resolver's expansion (`some "Chrome"`) that the claim requires. -/
theorem user_agent_template_verbatim :
    user_agent.Matcher.try_parse verbatimUAMatcher "Chrome 9" =
      some { family := "Chrome", major := some "$1", minor := none, patch := none } ∧
    none_if_empty (replace_cow "$1" (has_group "$1")
      (Captures.mk "Chrome 9" [some "Chrome", some "9"])) = some "Chrome" ∧
    ("$1" : String) ≠ "Chrome" := by
  refine ⟨by decide, by decide, by decide⟩

/-- C4 (amended): for optional fields, Device brand/model and OS
major/minor/patch resolve a configured template through the Template
Resolver and normalize empty to absent, falling back to their positional
group only without a template (brand has no fallback); the UserAgent
major/minor/patch fields instead surface a configured template verbatim,
with the positional fallback (groups 2/3/4, normalized) only when no
template is configured. -/
theorem optional_field_resolution :
    ∀ (t : String),
      (∀ (md : device.Matcher) (c : Captures) (d : Device),
        md.regex.captures t = some c → md.try_parse t = some d →
        (∀ r, md.brand_replacement = some r →
          d.brand = none_if_empty (replace_cow r md.brand_replacement_has_group c)) ∧
        (md.brand_replacement = none → d.brand = none) ∧
        (∀ r, md.model_replacement = some r →
          d.model = none_if_empty (replace_cow r md.model_replacement_has_group c)) ∧
        (md.model_replacement = none → d.model = (c.get 1).bind none_if_empty)) ∧
      (∀ (mo : os.Matcher) (c : Captures) (o : OS),
        mo.regex.captures t = some c → mo.try_parse t = some o →
        (∀ r, mo.os_v1_replacement = some r →
          o.major = none_if_empty (replace_cow r mo.os_v1_replacement_has_group c)) ∧
        (mo.os_v1_replacement = none → o.major = (c.get 2).bind none_if_empty) ∧
        (∀ r, mo.os_v2_replacement = some r →
          o.minor = none_if_empty (replace_cow r mo.os_v2_replacement_has_group c)) ∧
        (mo.os_v2_replacement = none → o.minor = (c.get 3).bind none_if_empty) ∧
        (∀ r, mo.os_v3_replacement = some r →
          o.patch = none_if_empty (replace_cow r mo.os_v3_replacement_has_group c)) ∧
        (mo.os_v3_replacement = none → o.patch = (c.get 4).bind none_if_empty) ∧
        o.patch_minor = (c.get 5).bind none_if_empty) ∧
      (∀ (mu : user_agent.Matcher) (c : Captures) (u : UserAgent),
        mu.regex.captures t = some c → mu.try_parse t = some u →
        (∀ r, mu.v1_replacement = some r → u.major = some r) ∧
        (mu.v1_replacement = none → u.major = (c.get 2).bind none_if_empty) ∧
        (∀ r, mu.v2_replacement = some r → u.minor = some r) ∧
        (mu.v2_replacement = none → u.minor = (c.get 3).bind none_if_empty) ∧
        (∀ r, mu.v3_replacement = some r → u.patch = some r) ∧
        (mu.v3_replacement = none → u.patch = (c.get 4).bind none_if_empty)) := by
  intro t
  refine ⟨?_, ?_, ?_⟩
  · intro md c d hc h
    obtain ⟨c2, hc2, hfam, hb, hm⟩ := device_try_parse_inv md t d h
    rw [hc] at hc2
    injection hc2 with hc2
    subst hc2
    refine ⟨?_, ?_, ?_, ?_⟩
    · intro r hr
      rw [hb]
      unfold device.Matcher.brandOf
      rw [hr]
      rfl
    · intro hr
      rw [hb]
      unfold device.Matcher.brandOf
      rw [hr]
      rfl
    · intro r hr
      rw [hm]
      unfold device.Matcher.modelOf
      rw [hr]
    · intro hr
      rw [hm]
      unfold device.Matcher.modelOf
      rw [hr]
  · intro mo c o hc h
    obtain ⟨c2, hc2, hfam, h2, h3, h4, h5⟩ := os_try_parse_inv mo t o h
    rw [hc] at hc2
    injection hc2 with hc2
    subst hc2
    refine ⟨?_, ?_, ?_, ?_, ?_, ?_, ?_⟩
    · intro r hr
      rw [h2]
      unfold os.Matcher.majorOf
      rw [hr]
    · intro hr
      rw [h2]
      unfold os.Matcher.majorOf
      rw [hr]
    · intro r hr
      rw [h3]
      unfold os.Matcher.minorOf
      rw [hr]
    · intro hr
      rw [h3]
      unfold os.Matcher.minorOf
      rw [hr]
    · intro r hr
      rw [h4]
      unfold os.Matcher.patchOf
      rw [hr]
    · intro hr
      rw [h4]
      unfold os.Matcher.patchOf
      rw [hr]
    · rw [h5]
      unfold os.Matcher.patch_minorOf
      rfl
  · intro mu c u hc h
    obtain ⟨c2, hc2, hfam, h2, h3, h4⟩ := ua_try_parse_inv mu t u h
    rw [hc] at hc2
    injection hc2 with hc2
    subst hc2
    refine ⟨?_, ?_, ?_, ?_, ?_, ?_⟩
    · intro r hr
      rw [h2]
      unfold user_agent.Matcher.majorOf
      rw [hr]
    · intro hr
      rw [h2]
      unfold user_agent.Matcher.majorOf
      rw [hr]
    · intro r hr
      rw [h3]
      unfold user_agent.Matcher.minorOf
      rw [hr]
    · intro hr
      rw [h3]
      unfold user_agent.Matcher.minorOf
      rw [hr]
    · intro r hr
      rw [h4]
      unfold user_agent.Matcher.patchOf
      rw [hr]
    · intro hr
      rw [h4]
      unfold user_agent.Matcher.patchOf
      rw [hr]

/-- C4 witness: the amended theorem applied to a concrete user-agent
matcher whose v1 template is `$1`. -/
theorem optional_field_resolution_app :
    ({ family := "Chrome", major := some "$1", minor := none, patch := none }
      : UserAgent).major = some "$1" := by
  have h := (optional_field_resolution "Chrome 9").2.2 verbatimUAMatcher
    (Captures.mk "Chrome 9" [some "Chrome", some "9"])
    { family := "Chrome", major := some "$1", minor := none, patch := none }
    (by decide) (by decide)
  exact h.1 "$1" rfl

/-- C5 counterexample: a device matcher with no model template still
produces a model (the text of capture group 1), where the claim requires
the model to be absent. -/
theorem device_model_group1_fallback :
    device.Matcher.try_parse plainDeviceMatcher "Nexus 5" =
      some { family := "Nexus", brand := none, model := some "Nexus" } ∧
    (some "Nexus" : Option String) ≠ none := by
  refine ⟨by decide, by decide⟩

/-- C5 (amended): on a successful device match, brand is absent whenever no
brand template is configured (no positional fallback), while model falls
back to capture group 1 — the same group as family — normalized
empty-to-absent, whenever no model template is configured. -/
theorem device_brand_model_fallback :
    ∀ (md : device.Matcher) (t : String) (c : Captures) (d : Device),
      md.regex.captures t = some c → md.try_parse t = some d →
      (md.brand_replacement = none → d.brand = none) ∧
      (md.model_replacement = none → d.model = (c.get 1).bind none_if_empty) := by
  intro md t c d hc h
  obtain ⟨c2, hc2, hfam, hb, hm⟩ := device_try_parse_inv md t d h
  rw [hc] at hc2
  injection hc2 with hc2
  subst hc2
  constructor
  · intro hr
    rw [hb]
    unfold device.Matcher.brandOf
    rw [hr]
    rfl
  · intro hr
    rw [hm]
    unfold device.Matcher.modelOf
    rw [hr]

/-- C5 witness: the amended theorem applied to a concrete device matcher
with no templates. -/
theorem device_brand_model_fallback_app :
    ({ family := "Nexus", brand := none, model := some "Nexus" } : Device).brand = none ∧
    ({ family := "Nexus", brand := none, model := some "Nexus" } : Device).model =
      ((Captures.mk "Nexus 5" [some "Nexus", some "5"]).get 1).bind none_if_empty := by
  have h := device_brand_model_fallback plainDeviceMatcher "Nexus 5"
    (Captures.mk "Nexus 5" [some "Nexus", some "5"])
    { family := "Nexus", brand := none, model := some "Nexus" } (by decide) (by decide)
  exact ⟨h.1 rfl, h.2 rfl⟩

/-- Concrete probe compiler accepting only a 20 MiB size limit. -/
def sizeProbeBuild : String → Nat → Except String Regex :=
  fun _ n => if n = 20 * 2 ^ 20 then Except.ok matchAllRegex
             else Except.error "size limit is not 20 MiB"

/-- Concrete probe compiler that always fails. -/
def failBuild : String → Nat → Except String Regex :=
  fun _ _ => Except.error "bad pattern"

/-- Concrete device rule record with no flag and no templates. -/
def exDeviceEntry : DeviceParserEntry :=
  { regex_flag := none, regex := "abc", device_replacement := none
  , brand_replacement := none, model_replacement := none }

/-- Concrete os rule record with no flag and no templates. -/
def exOSEntry : OSParserEntry :=
  { regex_flag := none, regex := "abc", os_replacement := none
  , os_v1_replacement := none, os_v2_replacement := none, os_v3_replacement := none }

/-- Concrete user-agent rule record with no flag and no templates. -/
def exUAEntry : UserAgentParserEntry :=
  { regex_flag := none, regex := "abc", family_replacement := none
  , v1_replacement := none, v2_replacement := none, v3_replacement := none }

/-- C6 counterexample: under a compiler accepting only a 20 MiB limit,
device and user-agent construction succeed while os construction fails,
because os construction does not request the 20 MiB ceiling. -/
theorem os_size_limit_differs :
    (device.Matcher.try_from sizeProbeBuild exDeviceEntry).isOk = true ∧
    (user_agent.Matcher.try_from sizeProbeBuild exUAEntry).isOk = true ∧
    os.Matcher.try_from sizeProbeBuild exOSEntry =
      Except.error (os.Error.Regex "size limit is not 20 MiB") := by
  refine ⟨rfl, rfl, rfl⟩

/-- C6 (amended): device and user-agent construction hand the regex
compiler a 20 MiB compiled-size limit and propagate its error as a pattern
error; os construction compiles via Regex::new, so the crate's default
10 MiB limit is in effect, not 20 MiB. -/
theorem compile_size_limits :
    device.compiled_size_limit = 20 * 2 ^ 20 ∧
    user_agent.compiled_size_limit = 20 * 2 ^ 20 ∧
    os.compiled_size_limit = DEFAULT_SIZE_LIMIT ∧
    DEFAULT_SIZE_LIMIT ≠ 20 * 2 ^ 20 ∧
    (∀ (build : String → Nat → Except String Regex) (e : DeviceParserEntry) (err : String),
      build (device.compiled_pattern e) device.compiled_size_limit = Except.error err →
      device.Matcher.try_from build e = Except.error (device.Error.Regex err)) ∧
    (∀ (build : String → Nat → Except String Regex) (e : DeviceParserEntry) (r : Regex),
      build (device.compiled_pattern e) device.compiled_size_limit = Except.ok r →
      ∃ m, device.Matcher.try_from build e = Except.ok m ∧ m.regex = r) ∧
    (∀ (build : String → Nat → Except String Regex) (e : OSParserEntry) (err : String),
      build (os.compiled_pattern e) os.compiled_size_limit = Except.error err →
      os.Matcher.try_from build e = Except.error (os.Error.Regex err)) ∧
    (∀ (build : String → Nat → Except String Regex) (e : OSParserEntry) (r : Regex),
      build (os.compiled_pattern e) os.compiled_size_limit = Except.ok r →
      ∃ m, os.Matcher.try_from build e = Except.ok m ∧ m.regex = r) ∧
    (∀ (build : String → Nat → Except String Regex) (e : UserAgentParserEntry) (err : String),
      build (user_agent.compiled_pattern e) user_agent.compiled_size_limit = Except.error err →
      user_agent.Matcher.try_from build e = Except.error (user_agent.Error.Regex err)) ∧
    (∀ (build : String → Nat → Except String Regex) (e : UserAgentParserEntry) (r : Regex),
      build (user_agent.compiled_pattern e) user_agent.compiled_size_limit = Except.ok r →
      ∃ m, user_agent.Matcher.try_from build e = Except.ok m ∧ m.regex = r) := by
  refine ⟨rfl, rfl, rfl, by decide, ?_, ?_, ?_, ?_, ?_, ?_⟩
  · intro build e err h
    unfold device.Matcher.try_from
    rw [h]
  · intro build e r h
    refine ⟨{ regex := r
            , device_replacement_has_group := (e.device_replacement.map has_group).getD false
            , device_replacement := e.device_replacement
            , brand_replacement_has_group := (e.brand_replacement.map has_group).getD false
            , brand_replacement := e.brand_replacement
            , model_replacement_has_group := (e.model_replacement.map has_group).getD false
            , model_replacement := e.model_replacement }, ?_, rfl⟩
    unfold device.Matcher.try_from
    rw [h]
  · intro build e err h
    unfold os.Matcher.try_from
    rw [h]
  · intro build e r h
    refine ⟨{ regex := r
            , os_replacement_has_group := (e.os_replacement.map has_group).getD false
            , os_replacement := e.os_replacement
            , os_v1_replacement_has_group := (e.os_v1_replacement.map has_group).getD false
            , os_v1_replacement := e.os_v1_replacement
            , os_v2_replacement_has_group := (e.os_v2_replacement.map has_group).getD false
            , os_v2_replacement := e.os_v2_replacement
            , os_v3_replacement_has_group := (e.os_v3_replacement.map has_group).getD false
            , os_v3_replacement := e.os_v3_replacement }, ?_, rfl⟩
    unfold os.Matcher.try_from
    rw [h]
  · intro build e err h
    unfold user_agent.Matcher.try_from
    rw [h]
  · intro build e r h
    refine ⟨{ regex := r
            , family_replacement_has_group := (e.family_replacement.map has_group).getD false
            , family_replacement := e.family_replacement
            , v1_replacement := e.v1_replacement
            , v2_replacement := e.v2_replacement
            , v3_replacement := e.v3_replacement }, ?_, rfl⟩
    unfold user_agent.Matcher.try_from
    rw [h]

/-- C6 witness: the amended theorem's error propagation applied to a
concrete failing compiler and concrete entries. -/
theorem compile_size_limits_app :
    os.Matcher.try_from failBuild exOSEntry = Except.error (os.Error.Regex "bad pattern") ∧
    device.Matcher.try_from failBuild exDeviceEntry =
      Except.error (device.Error.Regex "bad pattern") := by
  have h1 := compile_size_limits.2.2.2.2.2.2.1 failBuild exOSEntry "bad pattern" rfl
  have h2 := compile_size_limits.2.2.2.2.1 failBuild exDeviceEntry "bad pattern" rfl
  exact ⟨h1, h2⟩

/-- Concrete probe compiler accepting only the flag-prefixed pattern
`(?i)abc`. -/
def flagProbeBuild : String → Nat → Except String Regex :=
  fun p _ => if p = "(?i)abc" then Except.ok matchAllRegex
             else Except.error "no inline flag prefix"

/-- Concrete device rule record with flag `i`. -/
def flaggedDeviceEntry : DeviceParserEntry :=
  { regex_flag := some "i", regex := "abc", device_replacement := none
  , brand_replacement := none, model_replacement := none }

/-- Concrete os rule record with flag `i`. -/
def flaggedOSEntry : OSParserEntry :=
  { regex_flag := some "i", regex := "abc", os_replacement := none
  , os_v1_replacement := none, os_v2_replacement := none, os_v3_replacement := none }

/-- Concrete user-agent rule record with flag `i`. -/
def flaggedUAEntry : UserAgentParserEntry :=
  { regex_flag := some "i", regex := "abc", family_replacement := none
  , v1_replacement := none, v2_replacement := none, v3_replacement := none }

/-- C7 counterexample: with a present, non-empty flag string, device
construction compiles the flag-prefixed pattern, but os and user-agent
construction compile the bare pattern, ignoring the flag. -/
theorem os_flags_ignored :
    (device.Matcher.try_from flagProbeBuild flaggedDeviceEntry).isOk = true ∧
    os.Matcher.try_from flagProbeBuild flaggedOSEntry =
      Except.error (os.Error.Regex "no inline flag prefix") ∧
    user_agent.Matcher.try_from flagProbeBuild flaggedUAEntry =
      Except.error (user_agent.Error.Regex "no inline flag prefix") := by
  refine ⟨rfl, rfl, rfl⟩

/-- C7 (amended): only device construction prepends a present, non-empty
flag string in inline-flag syntax before escape repair and compilation;
with an absent or empty flag the device pattern is compiled unmodified
apart from escape repair, and os and user-agent construction always compile
the pattern with escape repair only, never consulting the flag. -/
theorem flag_prepending :
    (∀ (e : DeviceParserEntry) (f : String), e.regex_flag = some f → f.isEmpty = false →
      device.compiled_pattern e = clean_escapes ("(?" ++ f ++ ")" ++ e.regex)) ∧
    (∀ e : DeviceParserEntry, e.regex_flag = none ∨ e.regex_flag = some "" →
      device.compiled_pattern e = clean_escapes e.regex) ∧
    (∀ e : OSParserEntry, os.compiled_pattern e = clean_escapes e.regex) ∧
    (∀ e : UserAgentParserEntry, user_agent.compiled_pattern e = clean_escapes e.regex) := by
  refine ⟨?_, ?_, fun e => rfl, fun e => rfl⟩
  · intro e f hf hne
    unfold device.compiled_pattern
    rw [hf]
    simp [hne]
  · intro e hf
    unfold device.compiled_pattern
    rcases hf with hf | hf <;> rw [hf] <;> rfl

/-- C7 witness: the amended theorem applied to concrete flagged and
unflagged entries. -/
theorem flag_prepending_app :
    device.compiled_pattern flaggedDeviceEntry = clean_escapes ("(?" ++ "i" ++ ")" ++ "abc") ∧
    device.compiled_pattern exDeviceEntry = clean_escapes "abc" ∧
    os.compiled_pattern flaggedOSEntry = clean_escapes "abc" := by
  refine ⟨flag_prepending.1 flaggedDeviceEntry "i" rfl rfl,
    flag_prepending.2.1 exDeviceEntry (Or.inl rfl),
    flag_prepending.2.2.1 flaggedOSEntry⟩

/-- C8 counterexample: escape repair is not idempotent — on the three
characters backslash backslash bang, one application gives backslash bang,
a second application gives a bare bang. -/
theorem clean_escapes_not_idempotent :
    clean_escapes "\\\\!" = "\\!" ∧
    clean_escapes (clean_escapes "\\\\!") = "!" ∧
    clean_escapes (clean_escapes "\\\\!") ≠ clean_escapes "\\\\!" := by
  refine ⟨by decide, by decide, by decide⟩

/-- C8 (amended): escape repair is idempotent on every pattern containing
no two consecutive backslashes; a backslash immediately preceding a
repairable escape defeats idempotence. -/
theorem clean_escapes_idempotent_noDoubleBS :
    ∀ p : String, noDoubleBS p.data = true →
      clean_escapes (clean_escapes p) = clean_escapes p := by
  intro p h
  show String.mk (clean_escapesAux (clean_escapesAux p.data)) = String.mk (clean_escapesAux p.data)
  rw [clean_escapesAux_idem p.data h]

/-- C8 witness: idempotence on a concrete repaired-dialect pattern. -/
theorem clean_escapes_idempotent_app :
    clean_escapes (clean_escapes "a\\!b/c d") = clean_escapes "a\\!b/c d" :=
  clean_escapes_idempotent_noDoubleBS "a\\!b/c d" (by decide)

/-- C9: the capture count of a successful match is always positive, so the
Template Resolver expands a group-referencing template against the captures
and trims the result, and returns a non-referencing template unchanged,
independent of the captures. -/
theorem replace_cow_spec :
    ∀ (tpl : String) (c : Captures),
      0 < c.len ∧
      replace_cow tpl true c = str_trim (c.expand tpl) ∧
      replace_cow tpl false c = tpl := by
  intro tpl c
  have hlen : 0 < c.len := by
    unfold Captures.len
    omega
  refine ⟨hlen, ?_, rfl⟩
  unfold replace_cow
  rw [if_pos]
  simp [hlen]

/-- C10: classification is total and, when no matcher succeeds, each
category's classifier returns the zero value: empty family, all optional
fields absent. -/
theorem classify_total_default :
    ∀ (p : UserAgentParser) (t : String),
      ((∀ m ∈ p.device_matchers, m.try_parse t = none) →
        p.parse_device t = Device.default) ∧
      ((∀ m ∈ p.os_matchers, m.try_parse t = none) → p.parse_os t = OS.default) ∧
      ((∀ m ∈ p.user_agent_matchers, m.try_parse t = none) →
        p.parse_user_agent t = UserAgent.default) ∧
      Device.default = { family := "", brand := none, model := none } ∧
      OS.default = { family := "", major := none, minor := none
                   , patch := none, patch_minor := none } ∧
      UserAgent.default = { family := "", major := none, minor := none, patch := none } := by
  intro p t
  refine ⟨?_, ?_, ?_, rfl, rfl, rfl⟩
  · intro h
    unfold UserAgentParser.parse_device
    rw [List.findSome?_eq_none_iff.mpr h]
    rfl
  · intro h
    unfold UserAgentParser.parse_os
    rw [List.findSome?_eq_none_iff.mpr h]
    rfl
  · intro h
    unfold UserAgentParser.parse_user_agent
    rw [List.findSome?_eq_none_iff.mpr h]
    rfl

/-- C10 witness: the theorem applied to a concrete parser with no rules. -/
theorem classify_total_default_app :
    UserAgentParser.parse_device ⟨[], [], []⟩ "x" = Device.default ∧
    UserAgentParser.parse_os ⟨[], [], []⟩ "x" = OS.default ∧
    UserAgentParser.parse_user_agent ⟨[], [], []⟩ "x" = UserAgent.default := by
  have h := classify_total_default ⟨[], [], []⟩ "x"
  exact ⟨h.1 (fun m hm => nomatch hm), h.2.1 (fun m hm => nomatch hm),
    h.2.2.1 (fun m hm => nomatch hm)⟩
